import Mathlib

/-!
Verification of the BPR traffic-congestion estimator exposed at
`POST /api/traffic/estimate` in `src/backend/src/server.js`.

The handler works on JavaScript numbers, so the value model `JSNum`
distinguishes `NaN`, the two infinities and finite values (modelled as
real numbers; we do not model double rounding or negative zero).  A
request-body field is a `JSVal`: either a JS number or any non-number
value (`undefined` for a missing field, strings, booleans, ...), which
is all the handler's `typeof v !== "number"` test can distinguish.

Arithmetic (`/`, `-`, `*`, `Math.pow`, `Math.round`, `toFixed`) follows
the ECMAScript semantics on these values; comparisons (`<=`, `<`) are
false whenever an operand is `NaN`.
-/

open Classical

inductive JSNum where
  | nan : JSNum
  | inf : Bool → JSNum
  | fin : ℝ → JSNum

/-- A JavaScript value as far as the handler can observe it:
`typeof v === "number"` or not. -/
inductive JSVal where
  | notNum : JSVal
  | num : JSNum → JSVal

/-- JS `a <= b` (false when either side is `NaN`). -/
def jsLe : JSNum → JSNum → Prop
  | .nan, _ => False
  | _, .nan => False
  | .inf false, _ => True
  | .inf true, .inf true => True
  | .inf true, _ => False
  | .fin _, .inf b => b = true
  | .fin x, .fin y => x ≤ y

/-- JS `a < b` (false when either side is `NaN`). -/
def jsLt : JSNum → JSNum → Prop
  | .nan, _ => False
  | _, .nan => False
  | .inf true, _ => False
  | .inf false, .inf false => False
  | .inf false, _ => True
  | .fin _, .inf b => b = true
  | .fin x, .fin y => x < y

/-- JS division (finite zeros carry sign `+0`, which we do not model). -/
noncomputable def jsDiv : JSNum → JSNum → JSNum
  | .nan, _ => .nan
  | _, .nan => .nan
  | .inf _, .inf _ => .nan
  | .inf s, .fin y => if y < 0 then .inf !s else .inf s
  | .fin _, .inf _ => .fin 0
  | .fin x, .fin y =>
      if y = 0 then (if x = 0 then .nan else if x < 0 then .inf false else .inf true)
      else .fin (x / y)

/-- JS subtraction. -/
noncomputable def jsSub : JSNum → JSNum → JSNum
  | .nan, _ => .nan
  | _, .nan => .nan
  | .inf a, .inf b => if a = b then .nan else .inf a
  | .inf a, .fin _ => .inf a
  | .fin _, .inf b => .inf !b
  | .fin x, .fin y => .fin (x - y)

/-- JS multiplication. -/
noncomputable def jsMul : JSNum → JSNum → JSNum
  | .nan, _ => .nan
  | _, .nan => .nan
  | .inf a, .inf b => if a = b then .inf true else .inf false
  | .inf a, .fin y => if y = 0 then .nan else if 0 < y then .inf a else .inf !a
  | .fin x, .inf b => if x = 0 then .nan else if 0 < x then .inf b else .inf !b
  | .fin x, .fin y => .fin (x * y)

/-- `Math.pow` following the ECMAScript `Number::exponentiate` cases.
For a positive finite b and finite exponent the value is the real power
`Real.rpow`; for a negative finite b and an integer exponent
`Real.rpow` again agrees with the signed integer power. -/
noncomputable def jsPow (b e : JSNum) : JSNum :=
  match e with
  | .nan => .nan
  | .inf s =>
      match b with
      | .nan => .nan
      | .inf _ => if s then .inf true else .fin 0
      | .fin x =>
          if |x| = 1 then .nan
          else if 1 < |x| then (if s then .inf true else .fin 0)
          else (if s then .fin 0 else .inf true)
  | .fin y =>
      if y = 0 then .fin 1
      else
        match b with
        | .nan => .nan
        | .inf true => if 0 < y then .inf true else .fin 0
        | .inf false =>
            if 0 < y then
              (if ∃ n : ℤ, Odd n ∧ (n : ℝ) = y then .inf false else .inf true)
            else .fin 0
        | .fin x =>
            if x = 0 then (if 0 < y then .fin 0 else .inf true)
            else if 0 < x then .fin (x ^ y)
            else if ∃ n : ℤ, (n : ℝ) = y then .fin (x ^ y)
            else .nan

/-- `Math.round`: half-up rounding, `round(x) = ⌊x + 1/2⌋`. -/
noncomputable def jsRound : JSNum → JSNum
  | .nan => .nan
  | .inf s => .inf s
  | .fin x => .fin ((⌊x + 1/2⌋ : ℤ) : ℝ)

/-- Rounding a nonnegative real to `d` decimal digits, as
`Number.prototype.toFixed` does on nonnegative arguments (nearest,
ties to the larger result). -/
noncomputable def roundTo (d : ℕ) (x : ℝ) : ℝ :=
  ((⌊x * 10 ^ d + 1/2⌋ : ℤ) : ℝ) / 10 ^ d

/-- `Number(v.toFixed(d))`: on finite values `toFixed` rounds the
mathematical value to `d` digits (negative values round away from
zero); `NaN` and the infinities print as `"NaN"` / `"Infinity"`, which
`Number` parses back unchanged. -/
noncomputable def toFixedNum (d : ℕ) : JSNum → JSNum
  | .nan => .nan
  | .inf s => .inf s
  | .fin x => if x < 0 then .fin (-(roundTo d (-x))) else .fin (roundTo d x)

/-- A JSON value appearing in a response body. -/
inductive JsonVal where
  | jnum : JSNum → JsonVal
  | jstr : String → JsonVal

/-- An HTTP response: status code and JSON-object body as a key/value list. -/
structure HttpResponse where
  status : ℕ
  body : List (String × JsonVal)

/-- The destructured request body `{ T_min, Tff_min, L_km, qpc, alpha, beta }`. -/
structure EstimateBody where
  T_min : JSVal
  Tff_min : JSVal
  L_km : JSVal
  qpc : JSVal
  alpha : JSVal
  beta : JSVal

/-- The per-field test of the validation guard:
`typeof v !== "number" || v <= 0`. -/
def invalidField : JSVal → Prop
  | .notNum => True
  | .num v => jsLe v (.fin 0)

/-- `[T_min, Tff_min, L_km, qpc, alpha, beta].some(v => typeof v !== "number" || v <= 0)`. -/
def someInvalid (b : EstimateBody) : Prop :=
  invalidField b.T_min ∨ invalidField b.Tff_min ∨ invalidField b.L_km ∨
    invalidField b.qpc ∨ invalidField b.alpha ∨ invalidField b.beta

/-- Extract the number from a field.  Called only after the validation
guard, which guarantees the field is a number; the `notNum` arm is
unreachable there. -/
def toNum : JSVal → JSNum
  | .notNum => .nan
  | .num v => v

/-- The `POST /api/traffic/estimate` handler, `server.js` lines 66-88. -/
noncomputable def estimateHandler (b : EstimateBody) : HttpResponse :=
  if someInvalid b then
    ⟨400, [("error", .jstr "All fields must be positive numbers.")]⟩
  else
    let T_min := toNum b.T_min
    let Tff_min := toNum b.Tff_min
    let qpc := toNum b.qpc
    let alpha := toNum b.alpha
    let beta := toNum b.beta
    if jsLe T_min Tff_min then
      ⟨200, [("q_veh_per_h", .jnum (.fin 0)), ("N_veh", .jnum (.fin 0)),
             ("note", .jstr "Free flow or better than free flow.")]⟩
    else
      let T_h := jsDiv T_min (.fin 60)
      let Tff_h := jsDiv Tff_min (.fin 60)
      let Tratio := jsDiv T_h Tff_h
      let base := jsDiv (jsSub Tratio (.fin 1)) alpha
      if jsLt base (.fin 0) then
        ⟨400, [("error", .jstr "Invalid base value, check parameters.")]⟩
      else
        let q := jsMul qpc (jsPow base (jsDiv (.fin 1) beta))
        let N := jsMul q T_h
        ⟨200, [("q_veh_per_h", .jnum (toFixedNum 2 q)), ("N_veh", .jnum (jsRound N)),
               ("Tratio", .jnum (toFixedNum 3 Tratio))]⟩

/-- Request body whose six fields are the given finite numbers. -/
def mkBody (T Tff L qpc a bt : ℝ) : EstimateBody :=
  ⟨.num (.fin T), .num (.fin Tff), .num (.fin L), .num (.fin qpc), .num (.fin a), .num (.fin bt)⟩

/-- The list of keys of the response's JSON body, in order. -/
def fieldKeys (r : HttpResponse) : List String :=
  r.body.map Prod.fst

/-- Look up a key in the response's JSON body. -/
def getField (r : HttpResponse) (k : String) : Option JsonVal :=
  r.body.lookup k

/-! ## Helper lemmas -/

lemma someInvalid_mkBody (T Tff L qpc a bt : ℝ) :
    someInvalid (mkBody T Tff L qpc a bt) ↔
      (T ≤ 0 ∨ Tff ≤ 0 ∨ L ≤ 0 ∨ qpc ≤ 0 ∨ a ≤ 0 ∨ bt ≤ 0) := by
  simp [someInvalid, mkBody, invalidField, jsLe]

lemma not_someInvalid_mkBody {T Tff L qpc a bt : ℝ}
    (hT : 0 < T) (hTff : 0 < Tff) (hL : 0 < L) (hq : 0 < qpc) (ha : 0 < a) (hbt : 0 < bt) :
    ¬ someInvalid (mkBody T Tff L qpc a bt) := by
  rw [someInvalid_mkBody]
  push_neg
  exact ⟨hT, hTff, hL, hq, ha, hbt⟩

lemma estimate_freeflow (T Tff L qpc a bt : ℝ)
    (hT : 0 < T) (hTff : 0 < Tff) (hL : 0 < L) (hq : 0 < qpc) (ha : 0 < a) (hbt : 0 < bt)
    (hle : T ≤ Tff) :
    estimateHandler (mkBody T Tff L qpc a bt) =
      ⟨200, [("q_veh_per_h", .jnum (.fin 0)), ("N_veh", .jnum (.fin 0)),
             ("note", .jstr "Free flow or better than free flow.")]⟩ := by
  rw [estimateHandler, if_neg (not_someInvalid_mkBody hT hTff hL hq ha hbt)]
  simp only [mkBody, toNum]
  rw [if_pos (show jsLe (JSNum.fin T) (JSNum.fin Tff) by simpa [jsLe] using hle)]

lemma estimate_congested (T Tff L qpc a bt : ℝ)
    (hT : 0 < T) (hTff : 0 < Tff) (hL : 0 < L) (hq : 0 < qpc) (ha : 0 < a) (hbt : 0 < bt)
    (hlt : Tff < T) :
    estimateHandler (mkBody T Tff L qpc a bt) =
      ⟨200, [("q_veh_per_h",
                .jnum (.fin (roundTo 2 (qpc * ((T/60 / (Tff/60) - 1) / a) ^ ((1:ℝ)/bt))))),
             ("N_veh",
                .jnum (.fin ((⌊qpc * ((T/60 / (Tff/60) - 1) / a) ^ ((1:ℝ)/bt) * (T/60) + 1/2⌋ : ℤ) : ℝ))),
             ("Tratio", .jnum (.fin (roundTo 3 (T/60 / (Tff/60)))))]⟩ := by
  have h60 : (60:ℝ) ≠ 0 := by norm_num
  have hTff60 : Tff / 60 ≠ 0 := by positivity
  have hTrEq : T/60 / (Tff/60) = T / Tff := by
    field_simp
  have hTr1 : 1 < T/60 / (Tff/60) := by
    rw [hTrEq]; exact (one_lt_div hTff).mpr hlt
  have hbase : 0 < (T/60 / (Tff/60) - 1) / a := div_pos (by linarith) ha
  have hexp : (1:ℝ)/bt ≠ 0 := one_div_ne_zero hbt.ne'
  have hqpos : 0 < qpc * ((T/60 / (Tff/60) - 1) / a) ^ ((1:ℝ)/bt) :=
    mul_pos hq (Real.rpow_pos_of_pos hbase _)
  have hTrnn : ¬ (T/60 / (Tff/60) < 0) := not_lt.mpr (by linarith)
  rw [estimateHandler, if_neg (not_someInvalid_mkBody hT hTff hL hq ha hbt)]
  simp only [mkBody, toNum]
  rw [if_neg (show ¬ jsLe (JSNum.fin T) (JSNum.fin Tff) by
        simpa [jsLe] using not_le.mpr hlt)]
  simp only [jsDiv, jsSub, jsMul, jsPow, jsLt, jsRound, toFixedNum,
    if_neg h60, if_neg hTff60, if_neg ha.ne', if_neg hbt.ne', if_neg hexp,
    if_neg (not_lt.mpr hbase.le), if_neg hbase.ne', if_pos hbase,
    if_neg (not_lt.mpr hqpos.le), if_neg hTrnn]

lemma qroot_pow_four : (((20:ℝ)/3) ^ ((1:ℝ)/4)) ^ (4:ℕ) = 20/3 := by
  rw [← Real.rpow_natCast (((20:ℝ)/3) ^ ((1:ℝ)/4)) 4,
    ← Real.rpow_mul (by norm_num : (0:ℝ) ≤ 20/3)]
  norm_num

lemma qroot_lb : (1.606855 : ℝ) ≤ ((20:ℝ)/3) ^ ((1:ℝ)/4) := by
  apply le_of_pow_le_pow_left₀ (by norm_num : (4:ℕ) ≠ 0) (Real.rpow_nonneg (by norm_num) _)
  rw [qroot_pow_four]
  norm_num

lemma qroot_ub : ((20:ℝ)/3) ^ ((1:ℝ)/4) < 1.606865 := by
  apply lt_of_pow_lt_pow_left₀ 4 (by norm_num : (0:ℝ) ≤ 1.606865)
  rw [qroot_pow_four]
  norm_num

/-- Full evaluation of the handler on the spec's Scenario 2 input. -/
lemma estimate_scenario2 :
    estimateHandler (mkBody 60 30 5 1000 0.15 4) =
      ⟨200, [("q_veh_per_h", .jnum (.fin 1606.86)), ("N_veh", .jnum (.fin 1607)),
             ("Tratio", .jnum (.fin 2))]⟩ := by
  rw [estimate_congested 60 30 5 1000 0.15 4 (by norm_num) (by norm_num) (by norm_num)
    (by norm_num) (by norm_num) (by norm_num) (by norm_num)]
  have hb : (((60:ℝ)/60 / ((30:ℝ)/60) - 1) / 0.15) = 20/3 := by norm_num
  have h1 : (60:ℝ)/60 = 1 := by norm_num
  have hr : (60:ℝ)/60 / ((30:ℝ)/60) = 2 := by norm_num
  rw [hb, hr, h1]
  have hfl1 : ⌊(1000:ℝ) * ((20:ℝ)/3) ^ ((1:ℝ)/4) * 10 ^ (2:ℕ) + 1/2⌋ = 160686 := by
    rw [Int.floor_eq_iff]
    have h1 := qroot_lb
    have h2 := qroot_ub
    constructor
    · push_cast
      nlinarith
    · push_cast
      nlinarith
  have hfl2 : ⌊(1000:ℝ) * ((20:ℝ)/3) ^ ((1:ℝ)/4) * 1 + 1/2⌋ = 1607 := by
    rw [Int.floor_eq_iff]
    have h1 := qroot_lb
    have h2 := qroot_ub
    constructor
    · push_cast
      nlinarith
    · push_cast
      nlinarith
  have hfl3 : ⌊(2:ℝ) * 10 ^ (3:ℕ) + 1/2⌋ = 2000 := by
    rw [Int.floor_eq_iff]
    constructor
    · push_cast
      norm_num
    · push_cast
      norm_num
  rw [roundTo, roundTo, hfl1, hfl3, hfl2]
  norm_num

/-! ## Claim theorems -/

/-- Claim C1: for every request whose six fields are positive finite numbers
with `T_min > Tff_min`, the handler returns
`q_veh_per_h = qpc * ((Tratio - 1)/alpha)^(1/beta)` rounded to 2 decimals,
`N_veh = round(q * T_obs_hours)` (JS `Math.round`, i.e. half-up), and
`Tratio = T_obs_hours / Tff_hours` rounded to 3 decimals, where
`T_obs_hours = T_min/60` and `Tff_hours = Tff_min/60`. -/
theorem estimate_valid_formula (T Tff L qpc a bt : ℝ)
    (hT : 0 < T) (hTff : 0 < Tff) (hL : 0 < L) (hq : 0 < qpc) (ha : 0 < a) (hbt : 0 < bt)
    (hlt : Tff < T) :
    estimateHandler (mkBody T Tff L qpc a bt) =
      ⟨200, [("q_veh_per_h",
                .jnum (.fin (roundTo 2 (qpc * ((T/60 / (Tff/60) - 1) / a) ^ ((1:ℝ)/bt))))),
             ("N_veh",
                .jnum (.fin ((⌊qpc * ((T/60 / (Tff/60) - 1) / a) ^ ((1:ℝ)/bt) * (T/60) + 1/2⌋ : ℤ) : ℝ))),
             ("Tratio", .jnum (.fin (roundTo 3 (T/60 / (Tff/60)))))]⟩ :=
  estimate_congested T Tff L qpc a bt hT hTff hL hq ha hbt hlt

theorem estimate_valid_formula_witness :
    ((0:ℝ) < 60 ∧ (0:ℝ) < 30 ∧ (0:ℝ) < 5 ∧ (0:ℝ) < 1000 ∧ (0:ℝ) < 1 ∧ (30:ℝ) < 60) ∧
    estimateHandler (mkBody 60 30 5 1000 1 1) =
      ⟨200, [("q_veh_per_h",
                .jnum (.fin (roundTo 2 ((1000:ℝ) * (((60:ℝ)/60 / ((30:ℝ)/60) - 1) / 1) ^ ((1:ℝ)/1))))),
             ("N_veh",
                .jnum (.fin ((⌊(1000:ℝ) * (((60:ℝ)/60 / ((30:ℝ)/60) - 1) / 1) ^ ((1:ℝ)/1) * ((60:ℝ)/60) + 1/2⌋ : ℤ) : ℝ))),
             ("Tratio", .jnum (.fin (roundTo 3 ((60:ℝ)/60 / ((30:ℝ)/60)))))]⟩ :=
  ⟨⟨by norm_num, by norm_num, by norm_num, by norm_num, by norm_num, by norm_num⟩,
   estimate_valid_formula 60 30 5 1000 1 1 (by norm_num) (by norm_num) (by norm_num)
     (by norm_num) (by norm_num) (by norm_num) (by norm_num)⟩

/-- Claim C2: for every request with all six fields positive (finite) numbers and
`T_min <= Tff_min`, the handler returns exactly flow 0, vehicle count 0 and the
free-flow note, with status 200, regardless of `alpha`, `beta`, `qpc`, `L_km`. -/
theorem estimate_freeflow_case (T Tff L qpc a bt : ℝ)
    (hT : 0 < T) (hTff : 0 < Tff) (hL : 0 < L) (hq : 0 < qpc) (ha : 0 < a) (hbt : 0 < bt)
    (hle : T ≤ Tff) :
    estimateHandler (mkBody T Tff L qpc a bt) =
      ⟨200, [("q_veh_per_h", .jnum (.fin 0)), ("N_veh", .jnum (.fin 0)),
             ("note", .jstr "Free flow or better than free flow.")]⟩ :=
  estimate_freeflow T Tff L qpc a bt hT hTff hL hq ha hbt hle

theorem estimate_freeflow_case_witness :
    ((0:ℝ) < 30 ∧ (0:ℝ) < 5 ∧ (0:ℝ) < 1000 ∧ (0:ℝ) < 0.15 ∧ (0:ℝ) < 4 ∧ (30:ℝ) ≤ 30) ∧
    estimateHandler (mkBody 30 30 5 1000 0.15 4) =
      ⟨200, [("q_veh_per_h", .jnum (.fin 0)), ("N_veh", .jnum (.fin 0)),
             ("note", .jstr "Free flow or better than free flow.")]⟩ :=
  ⟨⟨by norm_num, by norm_num, by norm_num, by norm_num, by norm_num, by norm_num⟩,
   estimate_freeflow_case 30 30 5 1000 0.15 4 (by norm_num) (by norm_num) (by norm_num)
     (by norm_num) (by norm_num) (by norm_num) (by norm_num)⟩

/-- Claim C6: for every request passing validation (six positive finite fields)
with `T_min > Tff_min`, the intermediate base is nonnegative and the
"Invalid base value, check parameters." rejection is never the response. -/
theorem invalid_base_unreachable (T Tff L qpc a bt : ℝ)
    (hT : 0 < T) (hTff : 0 < Tff) (hL : 0 < L) (hq : 0 < qpc) (ha : 0 < a) (hbt : 0 < bt)
    (hlt : Tff < T) :
    0 ≤ (T/60 / (Tff/60) - 1) / a ∧
    estimateHandler (mkBody T Tff L qpc a bt) ≠
      ⟨400, [("error", .jstr "Invalid base value, check parameters.")]⟩ := by
  have hTrEq : T/60 / (Tff/60) = T / Tff := by field_simp
  have hTr1 : 1 < T/60 / (Tff/60) := by
    rw [hTrEq]; exact (one_lt_div hTff).mpr hlt
  refine ⟨div_nonneg (by linarith) ha.le, ?_⟩
  rw [estimate_congested T Tff L qpc a bt hT hTff hL hq ha hbt hlt]
  simp

theorem invalid_base_unreachable_witness :
    ((0:ℝ) < 60 ∧ (0:ℝ) < 30 ∧ (0:ℝ) < 5 ∧ (0:ℝ) < 1000 ∧ (0:ℝ) < 0.15 ∧ (0:ℝ) < 4 ∧
      (30:ℝ) < 60) ∧
    (0 ≤ ((60:ℝ)/60 / ((30:ℝ)/60) - 1) / 0.15 ∧
      estimateHandler (mkBody 60 30 5 1000 0.15 4) ≠
        ⟨400, [("error", .jstr "Invalid base value, check parameters.")]⟩) :=
  ⟨⟨by norm_num, by norm_num, by norm_num, by norm_num, by norm_num, by norm_num, by norm_num⟩,
   invalid_base_unreachable 60 30 5 1000 0.15 4 (by norm_num) (by norm_num) (by norm_num)
     (by norm_num) (by norm_num) (by norm_num) (by norm_num)⟩

/-- Claim C9: the handler is deterministic and side-effect free: two
invocations on bodies with the same six field values produce the same
response.  (The embedding is a pure function of the six fields alone;
no other state enters its signature.) -/
theorem estimate_deterministic (b1 b2 : EstimateBody)
    (h1 : b1.T_min = b2.T_min) (h2 : b1.Tff_min = b2.Tff_min) (h3 : b1.L_km = b2.L_km)
    (h4 : b1.qpc = b2.qpc) (h5 : b1.alpha = b2.alpha) (h6 : b1.beta = b2.beta) :
    estimateHandler b1 = estimateHandler b2 := by
  have hb : b1 = b2 := by
    cases b1; cases b2; simp_all
  rw [hb]

theorem estimate_deterministic_witness :
    ((mkBody 60 30 5 1000 0.15 4).T_min = (mkBody 60 30 5 1000 0.15 4).T_min ∧
      (mkBody 60 30 5 1000 0.15 4).Tff_min = (mkBody 60 30 5 1000 0.15 4).Tff_min ∧
      (mkBody 60 30 5 1000 0.15 4).L_km = (mkBody 60 30 5 1000 0.15 4).L_km ∧
      (mkBody 60 30 5 1000 0.15 4).qpc = (mkBody 60 30 5 1000 0.15 4).qpc ∧
      (mkBody 60 30 5 1000 0.15 4).alpha = (mkBody 60 30 5 1000 0.15 4).alpha ∧
      (mkBody 60 30 5 1000 0.15 4).beta = (mkBody 60 30 5 1000 0.15 4).beta) ∧
    estimateHandler (mkBody 60 30 5 1000 0.15 4) = estimateHandler (mkBody 60 30 5 1000 0.15 4) :=
  ⟨⟨rfl, rfl, rfl, rfl, rfl, rfl⟩,
   estimate_deterministic (mkBody 60 30 5 1000 0.15 4) (mkBody 60 30 5 1000 0.15 4)
     rfl rfl rfl rfl rfl rfl⟩

/-- Claim C3 (counterexample): a request whose `T_min` is `Infinity` (not a
finite number) passes the guard `typeof v !== "number" || v <= 0` and produces
a status-200 computed response, not the "All fields must be positive numbers."
rejection demanded by the claim. -/
theorem nonfinite_not_rejected :
    estimateHandler ⟨.num (.inf true), .num (.fin 30), .num (.fin 5), .num (.fin 1000),
        .num (.fin 0.15), .num (.fin 4)⟩ =
      ⟨200, [("q_veh_per_h", .jnum (.inf true)), ("N_veh", .jnum (.inf true)),
             ("Tratio", .jnum (.inf true))]⟩ ∧
    (200 : ℕ) ≠ 400 := by
  constructor
  · have hinv : ¬ someInvalid ⟨.num (.inf true), .num (.fin 30), .num (.fin 5),
        .num (.fin 1000), .num (.fin 0.15), .num (.fin 4)⟩ := by
      norm_num [someInvalid, invalidField, jsLe]
    rw [estimateHandler, if_neg hinv]
    simp only [toNum]
    rw [if_neg (show ¬ jsLe (JSNum.inf true) (JSNum.fin 30) by simp [jsLe])]
    norm_num [jsDiv, jsSub, jsMul, jsPow, jsLt, jsRound, toFixedNum]
  · norm_num

/-- Claim C3 (amended): a request in which some field is missing / not of
number type, or is a number that is `<= 0` in the JS sense (so `-Infinity`
included, but `NaN` and `+Infinity` excluded, since the guard never tests
finiteness), is rejected with status 400 and "All fields must be positive
numbers.", and never yields a computed result. -/
theorem invalid_fields_rejected (vT vTff vL vq va vb : JSVal)
    (h : invalidField vT ∨ invalidField vTff ∨ invalidField vL ∨ invalidField vq ∨
         invalidField va ∨ invalidField vb) :
    estimateHandler ⟨vT, vTff, vL, vq, va, vb⟩ =
      ⟨400, [("error", .jstr "All fields must be positive numbers.")]⟩ := by
  rw [estimateHandler, if_pos (show someInvalid ⟨vT, vTff, vL, vq, va, vb⟩ from h)]

theorem invalid_fields_rejected_witness :
    (invalidField JSVal.notNum ∨ invalidField (.num (.fin 20)) ∨
      invalidField (.num (.fin 5)) ∨ invalidField (.num (.fin 1000)) ∨
      invalidField (.num (.fin 0.15)) ∨ invalidField JSVal.notNum) ∧
    estimateHandler ⟨.num (.fin 30), .num (.fin 20), .num (.fin 5), .num (.fin 1000),
        .num (.fin 0.15), JSVal.notNum⟩ =
      ⟨400, [("error", .jstr "All fields must be positive numbers.")]⟩ :=
  ⟨Or.inl (by simp [invalidField]),
   invalid_fields_rejected (.num (.fin 30)) (.num (.fin 20)) (.num (.fin 5))
     (.num (.fin 1000)) (.num (.fin 0.15)) JSVal.notNum
     (Or.inr (Or.inr (Or.inr (Or.inr (Or.inr (by simp [invalidField]))))))⟩

/-- Claim C4 (counterexample): on the spec's Scenario 2 input
`{T_min:60, Tff_min:30, L_km:5, qpc:1000, alpha:0.15, beta:4}` the handler
returns `N_veh = 1607`, not the claimed `1606` (the claimed flow 1606.24 is
likewise wrong: the computed flow is 1000 * (20/3)^(1/4) ≈ 1606.857). -/
theorem scenario2_N_veh_not_1606 :
    getField (estimateHandler (mkBody 60 30 5 1000 0.15 4)) "N_veh" =
        some (.jnum (.fin 1607)) ∧
    (1607 : ℝ) ≠ 1606 := by
  constructor
  · rw [estimate_scenario2]
    rfl
  · norm_num

/-- Claim C4 (amended): on the Scenario 2 input the handler returns
`Tratio = 2`, `q_veh_per_h = 1606.86` (the 2-decimal rounding of
`1000 * (20/3)^(1/4) ≈ 1606.857`) and `N_veh = 1607`. -/
theorem scenario2_values :
    estimateHandler (mkBody 60 30 5 1000 0.15 4) =
      ⟨200, [("q_veh_per_h", .jnum (.fin 1606.86)), ("N_veh", .jnum (.fin 1607)),
             ("Tratio", .jnum (.fin 2))]⟩ :=
  estimate_scenario2

lemma roundTo_eq_of_bounds (d : ℕ) (x : ℝ) (n : ℤ)
    (h1 : (n:ℝ) ≤ x * 10 ^ d + 1/2) (h2 : x * 10 ^ d + 1/2 < n + 1) :
    roundTo d x = (n : ℝ) / 10 ^ d := by
  rw [roundTo, Int.floor_eq_iff.mpr ⟨h1, h2⟩]

lemma roundTo_mono (d : ℕ) {x y : ℝ} (h : x ≤ y) : roundTo d x ≤ roundTo d y := by
  rw [roundTo, roundTo]
  gcongr

/-- Evaluation on `{T_min:60, Tff_min:30, L_km:5, qpc:1, alpha:1, beta:1}`. -/
lemma estimate_A_eval :
    estimateHandler (mkBody 60 30 5 1 1 1) =
      ⟨200, [("q_veh_per_h", .jnum (.fin 1)), ("N_veh", .jnum (.fin 1)),
             ("Tratio", .jnum (.fin 2))]⟩ := by
  rw [estimate_congested 60 30 5 1 1 1 (by norm_num) (by norm_num) (by norm_num)
    (by norm_num) (by norm_num) (by norm_num) (by norm_num)]
  have hb : ((60:ℝ)/60 / ((30:ℝ)/60) - 1) / 1 = 1 := by norm_num
  have hr : (60:ℝ)/60 / ((30:ℝ)/60) = 2 := by norm_num
  have h1 : (60:ℝ)/60 = 1 := by norm_num
  have he : ((1:ℝ)/1) = 1 := by norm_num
  rw [hb, hr, h1, he, Real.one_rpow]
  rw [roundTo_eq_of_bounds 2 ((1:ℝ) * 1) 100 (by norm_num) (by norm_num)]
  rw [show ⌊(1:ℝ) * 1 * 1 + 1/2⌋ = 1 from by rw [Int.floor_eq_iff]; constructor <;> norm_num]
  rw [roundTo_eq_of_bounds 3 (2:ℝ) 2000 (by norm_num) (by norm_num)]
  norm_num

/-- Evaluation on `{T_min:60.1, Tff_min:30, L_km:5, qpc:1, alpha:1, beta:1}`. -/
lemma estimate_B_eval :
    estimateHandler (mkBody 60.1 30 5 1 1 1) =
      ⟨200, [("q_veh_per_h", .jnum (.fin 1)), ("N_veh", .jnum (.fin 1)),
             ("Tratio", .jnum (.fin 2.003))]⟩ := by
  rw [estimate_congested 60.1 30 5 1 1 1 (by norm_num) (by norm_num) (by norm_num)
    (by norm_num) (by norm_num) (by norm_num) (by norm_num)]
  have hb : ((60.1:ℝ)/60 / ((30:ℝ)/60) - 1) / 1 = 301/300 := by norm_num
  have hr : (60.1:ℝ)/60 / ((30:ℝ)/60) = 601/300 := by norm_num
  have h1 : (60.1:ℝ)/60 = 601/600 := by norm_num
  have he : ((1:ℝ)/1) = 1 := by norm_num
  rw [hb, hr, h1, he, Real.rpow_one]
  rw [roundTo_eq_of_bounds 2 ((1:ℝ) * (301/300)) 100 (by norm_num) (by norm_num)]
  rw [show ⌊(1:ℝ) * (301/300) * (601/600) + 1/2⌋ = 1 from by
    rw [Int.floor_eq_iff]; constructor <;> norm_num]
  rw [roundTo_eq_of_bounds 3 ((601:ℝ)/300) 2003 (by norm_num) (by norm_num)]
  norm_num

/-- Claim C5 (counterexample): the requests `(T_min=60)` and `(T_min=60.1)`
(with `Tff_min=30, L_km=5, qpc=1, alpha=1, beta=1`) are both valid with
`T_min > Tff_min` and `60 < 60.1`, yet both return the same rounded
`q_veh_per_h = 1.00`: the returned flow is not strictly larger. -/
theorem rounded_flow_not_strictly_monotone :
    getField (estimateHandler (mkBody 60 30 5 1 1 1)) "q_veh_per_h" =
        some (.jnum (.fin 1)) ∧
    getField (estimateHandler (mkBody 60.1 30 5 1 1 1)) "q_veh_per_h" =
        some (.jnum (.fin 1)) ∧
    (60:ℝ) < 60.1 ∧ (30:ℝ) < 60 := by
  refine ⟨?_, ?_, by norm_num, by norm_num⟩
  · rw [estimate_A_eval]; rfl
  · rw [estimate_B_eval]; rfl

/-- Claim C5 (amended): with `Tff_min, qpc, alpha, beta, L_km` fixed and
`Tff_min < T_min1 < T_min2`, the computed (pre-rounding) flow strictly
increases, and the returned 2-decimal `q_veh_per_h` is monotone
non-decreasing (strictness can be lost to rounding). -/
theorem flow_monotone_amended (T1 T2 Tff L qpc a bt : ℝ)
    (hT1 : 0 < T1) (hT2 : 0 < T2) (hTff : 0 < Tff) (hL : 0 < L) (hq : 0 < qpc)
    (ha : 0 < a) (hbt : 0 < bt) (h1 : Tff < T1) (h12 : T1 < T2) :
    getField (estimateHandler (mkBody T1 Tff L qpc a bt)) "q_veh_per_h" =
        some (.jnum (.fin (roundTo 2 (qpc * ((T1/60 / (Tff/60) - 1) / a) ^ ((1:ℝ)/bt))))) ∧
    getField (estimateHandler (mkBody T2 Tff L qpc a bt)) "q_veh_per_h" =
        some (.jnum (.fin (roundTo 2 (qpc * ((T2/60 / (Tff/60) - 1) / a) ^ ((1:ℝ)/bt))))) ∧
    qpc * ((T1/60 / (Tff/60) - 1) / a) ^ ((1:ℝ)/bt) <
        qpc * ((T2/60 / (Tff/60) - 1) / a) ^ ((1:ℝ)/bt) ∧
    roundTo 2 (qpc * ((T1/60 / (Tff/60) - 1) / a) ^ ((1:ℝ)/bt)) ≤
        roundTo 2 (qpc * ((T2/60 / (Tff/60) - 1) / a) ^ ((1:ℝ)/bt)) := by
  have h2 : Tff < T2 := lt_trans h1 h12
  have hTrEq1 : T1/60 / (Tff/60) = T1 / Tff := by field_simp
  have hTrEq2 : T2/60 / (Tff/60) = T2 / Tff := by field_simp
  have hbase1 : 0 < (T1/60 / (Tff/60) - 1) / a := by
    rw [hTrEq1]
    have : 1 < T1 / Tff := (one_lt_div hTff).mpr h1
    exact div_pos (by linarith) ha
  have hblt : (T1/60 / (Tff/60) - 1) / a < (T2/60 / (Tff/60) - 1) / a := by
    rw [hTrEq1, hTrEq2]
    have : T1 / Tff < T2 / Tff := by gcongr
    gcongr
  have key : qpc * ((T1/60 / (Tff/60) - 1) / a) ^ ((1:ℝ)/bt) <
      qpc * ((T2/60 / (Tff/60) - 1) / a) ^ ((1:ℝ)/bt) :=
    mul_lt_mul_of_pos_left (Real.rpow_lt_rpow hbase1.le hblt (by positivity)) hq
  refine ⟨?_, ?_, key, roundTo_mono 2 key.le⟩
  · rw [estimate_congested T1 Tff L qpc a bt hT1 hTff hL hq ha hbt h1]; rfl
  · rw [estimate_congested T2 Tff L qpc a bt hT2 hTff hL hq ha hbt h2]; rfl

theorem flow_monotone_amended_witness :
    ((0:ℝ) < 60 ∧ (0:ℝ) < 90 ∧ (0:ℝ) < 30 ∧ (0:ℝ) < 5 ∧ (0:ℝ) < 1 ∧
      (30:ℝ) < 60 ∧ (60:ℝ) < 90) ∧
    (getField (estimateHandler (mkBody 60 30 5 1 1 1)) "q_veh_per_h" =
        some (.jnum (.fin (roundTo 2 ((1:ℝ) * (((60:ℝ)/60 / ((30:ℝ)/60) - 1) / 1) ^ ((1:ℝ)/1))))) ∧
      getField (estimateHandler (mkBody 90 30 5 1 1 1)) "q_veh_per_h" =
        some (.jnum (.fin (roundTo 2 ((1:ℝ) * (((90:ℝ)/60 / ((30:ℝ)/60) - 1) / 1) ^ ((1:ℝ)/1))))) ∧
      (1:ℝ) * (((60:ℝ)/60 / ((30:ℝ)/60) - 1) / 1) ^ ((1:ℝ)/1) <
        (1:ℝ) * (((90:ℝ)/60 / ((30:ℝ)/60) - 1) / 1) ^ ((1:ℝ)/1) ∧
      roundTo 2 ((1:ℝ) * (((60:ℝ)/60 / ((30:ℝ)/60) - 1) / 1) ^ ((1:ℝ)/1)) ≤
        roundTo 2 ((1:ℝ) * (((90:ℝ)/60 / ((30:ℝ)/60) - 1) / 1) ^ ((1:ℝ)/1))) :=
  ⟨⟨by norm_num, by norm_num, by norm_num, by norm_num, by norm_num, by norm_num, by norm_num⟩,
   flow_monotone_amended 60 90 30 5 1 1 1 (by norm_num) (by norm_num) (by norm_num)
     (by norm_num) (by norm_num) (by norm_num) (by norm_num) (by norm_num) (by norm_num)⟩

/-- Claim C7: in the non-degenerate branch the returned `Tratio` equals
`T_min / Tff_min` rounded to 3 decimals, and it does not depend on
`alpha`, `beta`, `qpc`: any other positive values give the same field. -/
theorem tratio_exact_and_independent (T Tff L qpc a bt qpc2 a2 bt2 : ℝ)
    (hT : 0 < T) (hTff : 0 < Tff) (hL : 0 < L) (hq : 0 < qpc) (ha : 0 < a) (hbt : 0 < bt)
    (hq2 : 0 < qpc2) (ha2 : 0 < a2) (hbt2 : 0 < bt2) (hlt : Tff < T) :
    getField (estimateHandler (mkBody T Tff L qpc a bt)) "Tratio" =
        some (.jnum (.fin (roundTo 3 (T / Tff)))) ∧
    getField (estimateHandler (mkBody T Tff L qpc2 a2 bt2)) "Tratio" =
        getField (estimateHandler (mkBody T Tff L qpc a bt)) "Tratio" := by
  have hTrEq : T/60 / (Tff/60) = T / Tff := by field_simp
  constructor
  · rw [estimate_congested T Tff L qpc a bt hT hTff hL hq ha hbt hlt, hTrEq]
    rfl
  · rw [estimate_congested T Tff L qpc2 a2 bt2 hT hTff hL hq2 ha2 hbt2 hlt,
      estimate_congested T Tff L qpc a bt hT hTff hL hq ha hbt hlt]
    rfl

theorem tratio_exact_and_independent_witness :
    ((0:ℝ) < 60 ∧ (0:ℝ) < 30 ∧ (0:ℝ) < 5 ∧ (0:ℝ) < 1000 ∧ (0:ℝ) < 0.15 ∧ (0:ℝ) < 4 ∧
      (0:ℝ) < 7 ∧ (0:ℝ) < 2 ∧ (0:ℝ) < 3 ∧ (30:ℝ) < 60) ∧
    (getField (estimateHandler (mkBody 60 30 5 1000 0.15 4)) "Tratio" =
        some (.jnum (.fin (roundTo 3 ((60:ℝ) / 30)))) ∧
      getField (estimateHandler (mkBody 60 30 5 7 2 3)) "Tratio" =
        getField (estimateHandler (mkBody 60 30 5 1000 0.15 4)) "Tratio") :=
  ⟨⟨by norm_num, by norm_num, by norm_num, by norm_num, by norm_num, by norm_num,
    by norm_num, by norm_num, by norm_num, by norm_num⟩,
   tratio_exact_and_independent 60 30 5 1000 0.15 4 7 2 3 (by norm_num) (by norm_num)
     (by norm_num) (by norm_num) (by norm_num) (by norm_num) (by norm_num) (by norm_num)
     (by norm_num) (by norm_num)⟩

/-- Claim C8: `L_km` is validated but has no influence: two requests that
differ only in the (validation-passing) `L_km` field get identical
responses, whatever the other five fields are. -/
theorem L_field_no_influence (vT vTff vL1 vL2 vq va vb : JSVal)
    (h1 : ¬ invalidField vL1) (h2 : ¬ invalidField vL2) :
    estimateHandler ⟨vT, vTff, vL1, vq, va, vb⟩ =
      estimateHandler ⟨vT, vTff, vL2, vq, va, vb⟩ := by
  have hiff : someInvalid ⟨vT, vTff, vL1, vq, va, vb⟩ ↔
      someInvalid ⟨vT, vTff, vL2, vq, va, vb⟩ := by
    dsimp only [someInvalid]
    tauto
  rw [estimateHandler, estimateHandler]
  by_cases hc : someInvalid ⟨vT, vTff, vL1, vq, va, vb⟩
  · rw [if_pos hc, if_pos (hiff.mp hc)]
  · rw [if_neg hc, if_neg fun hx => hc (hiff.mpr hx)]

theorem L_field_no_influence_witness :
    (¬ invalidField (.num (.fin 5)) ∧ ¬ invalidField (.num (.fin 7))) ∧
    estimateHandler ⟨.num (.fin 60), .num (.fin 30), .num (.fin 5), .num (.fin 1000),
        .num (.fin 0.15), .num (.fin 4)⟩ =
      estimateHandler ⟨.num (.fin 60), .num (.fin 30), .num (.fin 7), .num (.fin 1000),
        .num (.fin 0.15), .num (.fin 4)⟩ :=
  ⟨⟨by norm_num [invalidField, jsLe], by norm_num [invalidField, jsLe]⟩,
   L_field_no_influence (.num (.fin 60)) (.num (.fin 30)) (.num (.fin 5)) (.num (.fin 7))
     (.num (.fin 1000)) (.num (.fin 0.15)) (.num (.fin 4))
     (by norm_num [invalidField, jsLe]) (by norm_num [invalidField, jsLe])⟩

/-- Evaluation on `{T_min:60, Tff_min:30, L_km:5, qpc:100.498, alpha:1, beta:1}`:
the exact flow is 100.498, returned as 100.5 after 2-decimal rounding, while
`N_veh = round(100.498 * 1) = 100` is computed from the unrounded flow. -/
lemma estimate_D_eval :
    estimateHandler (mkBody 60 30 5 100.498 1 1) =
      ⟨200, [("q_veh_per_h", .jnum (.fin 100.5)), ("N_veh", .jnum (.fin 100)),
             ("Tratio", .jnum (.fin 2))]⟩ := by
  rw [estimate_congested 60 30 5 100.498 1 1 (by norm_num) (by norm_num) (by norm_num)
    (by norm_num) (by norm_num) (by norm_num) (by norm_num)]
  have hb : ((60:ℝ)/60 / ((30:ℝ)/60) - 1) / 1 = 1 := by norm_num
  have hr : (60:ℝ)/60 / ((30:ℝ)/60) = 2 := by norm_num
  have h1 : (60:ℝ)/60 = 1 := by norm_num
  have he : ((1:ℝ)/1) = 1 := by norm_num
  rw [hb, hr, h1, he, Real.one_rpow]
  rw [roundTo_eq_of_bounds 2 ((100.498:ℝ) * 1) 10050 (by norm_num) (by norm_num)]
  rw [show ⌊(100.498:ℝ) * 1 * 1 + 1/2⌋ = 100 from by
    rw [Int.floor_eq_iff]; constructor <;> norm_num]
  rw [roundTo_eq_of_bounds 3 (2:ℝ) 2000 (by norm_num) (by norm_num)]
  norm_num

/-- Claim C10: the two success shapes are exclusive: the degenerate branch
has exactly the keys `q_veh_per_h, N_veh, note` (no `Tratio`), the
non-degenerate branch exactly `q_veh_per_h, N_veh, Tratio` (no `note`);
and `N_veh` is `Math.round` of the unrounded flow times `T_h`: on
`qpc = 100.498, alpha = beta = 1, T=60, Tff=30` the handler returns
`N_veh = 100`, whereas rounding the already-2-decimal-rounded flow
(100.5) would give 101. -/
theorem response_shapes (T Tff L qpc a bt : ℝ)
    (hT : 0 < T) (hTff : 0 < Tff) (hL : 0 < L) (hq : 0 < qpc) (ha : 0 < a) (hbt : 0 < bt) :
    (T ≤ Tff →
      fieldKeys (estimateHandler (mkBody T Tff L qpc a bt)) = ["q_veh_per_h", "N_veh", "note"]) ∧
    (Tff < T →
      fieldKeys (estimateHandler (mkBody T Tff L qpc a bt)) = ["q_veh_per_h", "N_veh", "Tratio"] ∧
      getField (estimateHandler (mkBody T Tff L qpc a bt)) "N_veh" =
        some (.jnum (.fin ((⌊qpc * ((T/60 / (Tff/60) - 1) / a) ^ ((1:ℝ)/bt) * (T/60) + 1/2⌋ : ℤ) : ℝ)))) ∧
    getField (estimateHandler (mkBody 60 30 5 100.498 1 1)) "N_veh" =
      some (.jnum (.fin 100)) ∧
    jsRound (.fin (roundTo 2 (100.498:ℝ) * ((60:ℝ)/60))) = .fin 101 := by
  refine ⟨?_, ?_, ?_, ?_⟩
  · intro hle
    rw [estimate_freeflow T Tff L qpc a bt hT hTff hL hq ha hbt hle]
    rfl
  · intro hlt
    rw [estimate_congested T Tff L qpc a bt hT hTff hL hq ha hbt hlt]
    exact ⟨rfl, rfl⟩
  · rw [estimate_D_eval]
    rfl
  · rw [roundTo_eq_of_bounds 2 (100.498:ℝ) 10050 (by norm_num) (by norm_num)]
    simp only [jsRound]
    rw [show ⌊((10050:ℤ):ℝ)/10^(2:ℕ) * ((60:ℝ)/60) + 1/2⌋ = 101 from by
      rw [Int.floor_eq_iff]; constructor <;> norm_num]
    norm_num

theorem response_shapes_witness :
    ((0:ℝ) < 60 ∧ (0:ℝ) < 30 ∧ (0:ℝ) < 5 ∧ (0:ℝ) < 1000 ∧ (0:ℝ) < 0.15 ∧ (0:ℝ) < 4) ∧
    (((60:ℝ) ≤ 30 →
        fieldKeys (estimateHandler (mkBody 60 30 5 1000 0.15 4)) =
          ["q_veh_per_h", "N_veh", "note"]) ∧
      ((30:ℝ) < 60 →
        fieldKeys (estimateHandler (mkBody 60 30 5 1000 0.15 4)) =
          ["q_veh_per_h", "N_veh", "Tratio"] ∧
        getField (estimateHandler (mkBody 60 30 5 1000 0.15 4)) "N_veh" =
          some (.jnum (.fin ((⌊(1000:ℝ) * (((60:ℝ)/60 / ((30:ℝ)/60) - 1) / 0.15) ^ ((1:ℝ)/4) * ((60:ℝ)/60) + 1/2⌋ : ℤ) : ℝ)))) ∧
      getField (estimateHandler (mkBody 60 30 5 100.498 1 1)) "N_veh" =
        some (.jnum (.fin 100)) ∧
      jsRound (.fin (roundTo 2 (100.498:ℝ) * ((60:ℝ)/60))) = .fin 101) :=
  ⟨⟨by norm_num, by norm_num, by norm_num, by norm_num, by norm_num, by norm_num⟩,
   response_shapes 60 30 5 1000 0.15 4 (by norm_num) (by norm_num) (by norm_num)
     (by norm_num) (by norm_num) (by norm_num)⟩
